import Mathlib

/-!
Shallow embedding of the yolo-rtsp-detection backend
(src/backend/app.py, src/backend/detection_service.py, src/backend/utils.py)
and proofs about the session lifecycle, frame-processing loop, result
persistence, URL validation and the results-listing helper.

Conventions of the embedding:
* Python strings are modelled as `List Char` (with `String.toList` at the
  boundary of concrete examples); Python floats used for box coordinates,
  confidences and times are modelled as `ℚ`.
* The Flask session dictionary `active_sessions` is an association list
  from session id to the stored session record.
* The worker thread of a session is modelled as a function consuming a
  finite script of external events (frames read from the capture device,
  read failures, model exceptions, observations of the cancellation flag).
-/

namespace YoloRtsp

/-! ## utils.py: validate_rtsp_url -/

/-- Character class of the regex shorthand w: letters, digits, underscore. -/
def wordChar (c : Char) : Bool :=
  c.isAlpha || c.isDigit || c = '_'

/-- Characters allowed in the host part of the pattern in utils.py line 13. -/
def hostChar (c : Char) : Bool :=
  wordChar c || c = '.' || c = '@' || c = ':' || c = '%' || c = '-'

/-- Characters allowed in a path segment of the pattern. -/
def pathChar (c : Char) : Bool :=
  wordChar c || c = '.' || c = '%' || c = '-'

/-- Characters allowed in the query part of the pattern. -/
def queryChar (c : Char) : Bool :=
  wordChar c || c = '=' || c = '&' || c = '.' || c = '-'

/-- States of the deterministic matcher for the anchored regex of
utils.py line 13 after its literal head has been consumed.  The character
classes of the regex are disjoint from the delimiters, so the regex is
matched by this DFA with no backtracking. -/
inductive PatState where
  | hostStart
  | host
  | segStart
  | seg
  | queryStart
  | query
deriving DecidableEq, Repr

/-- One transition of the pattern matcher; none means the match fails. -/
def patStep : PatState → Char → Option PatState
  | .hostStart, c => if hostChar c then some .host else none
  | .host, c =>
      if hostChar c then some .host
      else if c = '/' then some .segStart else none
  | .segStart, c => if pathChar c then some .seg else none
  | .seg, c =>
      if pathChar c then some .seg
      else if c = '/' then some .segStart
      else if c = '?' then some .queryStart else none
  | .queryStart, c => if queryChar c then some .query else none
  | .query, c => if queryChar c then some .query else none

/-- Accepting states of the matcher: at least one full path segment was
seen, and a query part, if begun, is nonempty. -/
def patAccept : PatState → Bool
  | .seg => true
  | .query => true
  | _ => false

/-- Run the matcher over the remaining characters. -/
def patRun : PatState → List Char → Bool
  | st, [] => patAccept st
  | st, c :: rest =>
    match patStep st c with
    | none => false
    | some st2 => patRun st2 rest

/-- Test whether the pattern argument is a leading piece of the string. -/
def startsWithChars : List Char → List Char → Bool
  | _, [] => true
  | [], _ :: _ => false
  | c :: s, p :: ps => c = p && startsWithChars s ps

/-- The literal protocol head of the pattern and of the startswith check. -/
def rtspHead : List Char := ('r' :: 't' :: 's' :: 'p' :: [':', '/', '/'])

/-- Matching of the full anchored pattern of utils.py line 13: the literal
head, then one or more host characters, one or more slash-led path
segments, and an optional nonempty query. -/
def rtsp_pattern_match (url : List Char) : Bool :=
  if startsWithChars url rtspHead then
    patRun .hostStart (url.drop rtspHead.length)
  else false

/-- Embedding of utils.validate_rtsp_url (utils.py lines 8-19): any string
with the protocol head is accepted outright; otherwise the result is the
regex match. -/
def validate_rtsp_url (url : List Char) : Bool :=
  if startsWithChars url rtspHead then true
  else rtsp_pattern_match url

/-! ## utils.py: get_latest_detection_results -/

/-- A file in a session's results directory, reduced to the attributes the
listing helper reads: its name and its modification time. -/
structure FileEntry where
  name : List Char
  mtime : Nat
deriving DecidableEq, Repr

/-- Test for the glob detection_*.json of utils.py line 26. -/
def isDetectionJson (n : List Char) : Bool :=
  startsWithChars n ('d' :: 'e' :: 't' :: 'e' :: 'c' :: 't' :: 'i' :: 'o' :: 'n' :: ['_'])
    && startsWithChars n.reverse ('n' :: 'o' :: 's' :: 'j' :: ['.'])

/-- Stable insertion into a list sorted by descending modification time:
the new element goes in front of the first element with an mtime not
above its own, so elements with equal mtimes keep their original order. -/
def insertByMtime (x : FileEntry) : List FileEntry → List FileEntry
  | [] => [x]
  | y :: rest =>
    if y.mtime ≤ x.mtime then x :: y :: rest else y :: insertByMtime x rest

/-- Stable sort by descending modification time, modelling the stable
Python sort with the getmtime key and reverse set (utils.py line 29). -/
def sortByMtimeDesc : List FileEntry → List FileEntry
  | [] => []
  | x :: rest => insertByMtime x (sortByMtimeDesc rest)

/-- Embedding of utils.get_latest_detection_results (utils.py lines
21-52): select the detection JSON files, sort them most recent first by
modification time, and keep at most the first limit of them. -/
def get_latest_detection_results (files : List FileEntry) (limit : Nat) :
    List FileEntry :=
  let json_files := files.filter (fun f => isDetectionJson f.name)
  let sorted := sortByMtimeDesc json_files
  sorted.take limit

/-! ## detection_service.py: data model of RTSPDetector -/

/-- A raw video frame as read from the capture device, reduced to the
attributes the detector reads: its shape and an identity tag standing for
the pixel payload. -/
structure Frame where
  height : Nat
  width : Nat
  payload : Nat
deriving DecidableEq, Repr

/-- One raw box returned by the YOLO model for a frame: predicted class
id, confidence, and absolute corner coordinates. -/
structure Box where
  cls : Nat
  conf : ℚ
  x1 : ℚ
  y1 : ℚ
  x2 : ℚ
  y2 : ℚ
deriving DecidableEq, Repr

/-- A processed detection object as built in _process_results
(detection_service.py lines 150-157). -/
structure Detection where
  det_id : Nat
  className : List Char
  class_id : Nat
  confidence : ℚ
  bbox : List ℚ
  rel_bbox : List ℚ
deriving DecidableEq, Repr

/-- Embedding of the class_names dictionary with default "unknown"
(detection_service.py lines 33-37 and 147). -/
def class_names (c : Nat) : List Char :=
  if c = 0 then ('p' :: 'e' :: 'r' :: 's' :: 'o' :: ['n'])
  else if c = 2 then ('c' :: 'a' :: ['r'])
  else if c = 16 then ('a' :: 'n' :: 'i' :: 'm' :: 'a' :: ['l'])
  else ('u' :: 'n' :: 'k' :: 'n' :: 'o' :: 'w' :: ['n'])

/-- Configuration fields of RTSPDetector.__init__ that the worker loop
reads (detection_service.py lines 13-30). -/
structure DetectorConfig where
  confidence : ℚ
  save_interval : ℚ
  detect_classes : List Nat
  save_classes : List Nat
deriving DecidableEq, Repr

/-- Default configuration of RTSPDetector.__init__. -/
def defaultConfig : DetectorConfig :=
  { confidence := 1 / 2
    save_interval := 1
    detect_classes := [0, 2, 16]
    save_classes := [0] }

/-- Relative coordinates computed in _process_results lines 139-144. -/
def rel_box (width height : ℚ) (b : Box) : List ℚ :=
  [b.x1 / width, b.y1 / height, b.x2 / width, b.y2 / height]

/-- The detection dictionary built for one box at enumeration index i
(_process_results lines 136-157). -/
def mkDetection (width height : ℚ) (i : Nat) (b : Box) : Detection :=
  { det_id := i
    className := class_names b.cls
    class_id := b.cls
    confidence := b.conf
    bbox := [b.x1, b.y1, b.x2, b.y2]
    rel_bbox := rel_box width height b }

/-- The enumeration loop of _process_results lines 130-164, started at
index i: each box of a detect class is appended to the full list, and also
to the saved list when its class is a save class.  Returns the pair of the
full list and the saved list. -/
def processBoxes (cfg : DetectorConfig) (width height : ℚ) :
    Nat → List Box → List Detection × List Detection
  | _, [] => ([], [])
  | i, b :: rest =>
    let tail := processBoxes cfg width height (i + 1) rest
    if cfg.detect_classes.contains b.cls then
      let d := mkDetection width height i b
      (d :: tail.1,
       if cfg.save_classes.contains b.cls then d :: tail.2 else tail.2)
    else tail

/-- The current_results dictionary (detection_service.py lines 167-172). -/
structure CurrentResults where
  frame_id : Nat
  detections : List Detection
  total_persons : Nat
  original_image_path : Option (List Char)
  annotated_image_path : Option (List Char)
deriving DecidableEq, Repr

/-- The current_full_detections dictionary (detection_service.py lines
175-185). -/
structure FullDetections where
  frame_id : Nat
  detections : List Detection
  count_person : Nat
  count_car : Nat
  count_animal : Nat
  total_detections : Nat
deriving DecidableEq, Repr

/-- Mutable fields of RTSPDetector that the worker loop and the API read
(detection_service.py lines 39-44). -/
structure DetectorState where
  running : Bool
  last_save_time : ℚ
  frame_count : Nat
  current_frame : Option Frame
  current_results : Option CurrentResults
  current_full_detections : Option FullDetections
deriving DecidableEq, Repr

/-- State of RTSPDetector right after __init__. -/
def initState : DetectorState :=
  { running := false
    last_save_time := 0
    frame_count := 0
    current_frame := none
    current_results := none
    current_full_detections := none }

/-- Embedding of _process_results (detection_service.py lines 118-190):
the model output is a list of per-frame results and only the first entry
is processed; both current dictionaries are rebuilt from the partitioned
detections of the frame. -/
def process_results (cfg : DetectorConfig) (st : DetectorState)
    (results : List (List Box)) (frame : Frame) : DetectorState :=
  let width : ℚ := frame.width
  let height : ℚ := frame.height
  let parts :=
    match results with
    | [] => (([] : List Detection), ([] : List Detection))
    | r :: _ => processBoxes cfg width height 0 r
  let all_detections := parts.1
  let saved_detections := parts.2
  { st with
    current_results := some
      { frame_id := st.frame_count
        detections := saved_detections
        total_persons := saved_detections.length
        original_image_path := none
        annotated_image_path := none }
    current_full_detections := some
      { frame_id := st.frame_count
        detections := all_detections
        count_person :=
          all_detections.countP (fun d => d.className = class_names 0)
        count_car :=
          all_detections.countP (fun d => d.className = class_names 2)
        count_animal :=
          all_detections.countP (fun d => d.className = class_names 16)
        total_detections := all_detections.length } }

/-- Which artifacts one call of _save_results wrote. -/
structure SaveOutcome where
  json_written : Bool
  original_written : Bool
  annotated_written : Bool
deriving DecidableEq, Repr

/-- Embedding of _save_results (detection_service.py lines 192-257),
with ts the timestamp string of the filenames: when current_results is
None nothing is written; otherwise the JSON record is always written, and
the original and annotated images are written exactly when a frame is
held and the full-view detection count is positive, in which case the
image paths are recorded into current_results.  The none result models
the exception raised by subscripting a missing current_full_detections,
which in the loop never happens. -/
def save_results (st : DetectorState) (ts : List Char) :
    Option (SaveOutcome × DetectorState) :=
  match st.current_results with
  | none => some ({ json_written := false, original_written := false,
                    annotated_written := false }, st)
  | some res =>
    match st.current_frame with
    | none => some ({ json_written := true, original_written := false,
                      annotated_written := false }, st)
    | some _ =>
      match st.current_full_detections with
      | none => none
      | some full =>
        if 0 < full.total_detections then
          some ({ json_written := true, original_written := true,
                  annotated_written := true },
            { st with current_results := some (
              { res with
                original_image_path := some
                  (('o' :: 'r' :: 'i' :: 'g' :: 'i' :: 'n' :: 'a' :: 'l'
                    :: ['_']) ++ ts)
                annotated_image_path := some
                  (('a' :: 'n' :: 'n' :: 'o' :: 't' :: 'a' :: 't' :: 'e'
                    :: 'd' :: ['_']) ++ ts) }) })
        else
          some ({ json_written := true, original_written := false,
                  annotated_written := false }, st)

/-! ## detection_service.py: the worker loop of start_detection -/

/-- One external event consumed by an iteration of the while loop of
start_detection (detection_service.py lines 80-104).  A frameOk event
carries the frame returned by cap.read, the model output for that frame
and the wall-clock time observed at the save check; frameRaise is a
successful read after which the model invocation raises; readFail is
ret being False; stopFlag is the loop condition observing that
stop_detection has cleared the running flag. -/
inductive StreamEvent where
  | frameOk (f : Frame) (results : List (List Box)) (now : ℚ) (ts : List Char)
  | frameRaise (f : Frame)
  | readFail
  | stopFlag
deriving DecidableEq, Repr

/-- Observable steps of a loop run, used to count reads, model
invocations and saves. -/
inductive Action where
  | readOk
  | readFailed
  | detectCall
  | saveCall
deriving DecidableEq, Repr

/-- How control left the try block of start_detection: cleanStop is the
loop condition turning false followed by the final cap.release; a
caughtErr is any exception, which detection_service.py lines 110-112
catch locally, clearing the running flag and skipping the release. -/
inductive ExitKind where
  | cleanStop
  | caughtErr (msg : List Char)
deriving DecidableEq, Repr

/-- Embedding of the while loop of start_detection over a finite event
script: per successfully read frame the counter is incremented, the frame
reference is published, the model is invoked, the results are processed,
and the save runs when the save interval has elapsed.  Exhaustion of the
script is the loop condition turning false.  Returns the final detector
state, the trace of actions, and the kind of exit. -/
def runLoop (cfg : DetectorConfig) :
    List StreamEvent → DetectorState → DetectorState × List Action × ExitKind
  | [], st => (st, [], .cleanStop)
  | e :: rest, st =>
    match e with
    | .stopFlag => (st, [], .cleanStop)
    | .readFail =>
      let r := runLoop cfg rest st
      (r.1, .readFailed :: r.2.1, r.2.2)
    | .frameRaise f =>
      let st1 := { st with frame_count := st.frame_count + 1,
                           current_frame := some f }
      (st1, [.readOk, .detectCall],
       .caughtErr ('m' :: 'o' :: 'd' :: 'e' :: ['l']))
    | .frameOk f results now ts =>
      let st1 := { st with frame_count := st.frame_count + 1,
                           current_frame := some f }
      let st2 := process_results cfg st1 results f
      if cfg.save_interval ≤ now - st2.last_save_time then
        match save_results st2 ts with
        | none =>
          (st2, [.readOk, .detectCall, .saveCall],
           .caughtErr ('s' :: 'a' :: 'v' :: ['e']))
        | some (_, st3) =>
          let st4 := { st3 with last_save_time := now }
          let r := runLoop cfg rest st4
          (r.1, .readOk :: .detectCall :: .saveCall :: r.2.1, r.2.2)
      else
        let r := runLoop cfg rest st2
        (r.1, .readOk :: .detectCall :: r.2.1, r.2.2)

/-- Result of one call of start_detection as seen by its caller:
the final detector state, the action trace, how the try block ended,
whether the final capture handle was released, and whether an exception
escaped to the caller. -/
structure WorkerRun where
  finalState : DetectorState
  actions : List Action
  exitKind : ExitKind
  released : Bool
  raisedOut : Bool
deriving DecidableEq, Repr

/-- Embedding of start_detection (detection_service.py lines 65-112):
the running flag is set, the source is opened, and on an unopenable
source the raised exception is caught by the local handler, which clears
the flag; the handler likewise catches every exception of the loop, and
on the clean path the handle is released.  No exception ever escapes to
the caller, since the except clause of lines 110-112 swallows them all. -/
def start_detection (cfg : DetectorConfig) (openOk : Bool)
    (script : List StreamEvent) (st0 : DetectorState) : WorkerRun :=
  let st1 := { st0 with running := true }
  if openOk then
    let r := runLoop cfg script st1
    match r.2.2 with
    | .cleanStop =>
      { finalState := r.1, actions := r.2.1, exitKind := .cleanStop,
        released := true, raisedOut := false }
    | .caughtErr m =>
      { finalState := { r.1 with running := false }, actions := r.2.1,
        exitKind := .caughtErr m, released := false, raisedOut := false }
  else
    { finalState := { st1 with running := false }, actions := [],
      exitKind := .caughtErr
        ('o' :: 'p' :: 'e' :: 'n' :: ' ' :: 'f' :: 'a' :: 'i' :: 'l' :: ['!']),
      released := false, raisedOut := false }

/-! ## app.py: session registry and routes -/

/-- A session record of the active_sessions dictionary (app.py lines
94-102), without the thread and detector handles. -/
structure SessionEntry where
  rtsp_url : List Char
  status : List Char
  errMsg : Option (List Char)
  detector_running : Bool
deriving DecidableEq, Repr

/-- The active_sessions dictionary as an association list. -/
abbrev Registry : Type := List (List Char × SessionEntry)

/-- Membership test of the Python in operator on the dictionary. -/
def lookupSession : Registry → List Char → Option SessionEntry
  | [], _ => none
  | (k, v) :: rest, sid => if k = sid then some v else lookupSession rest sid

/-- Pointwise update of one entry of the dictionary, a no-op on a missing
key, like the item assignments of app.py. -/
def updateSession : Registry → List Char → (SessionEntry → SessionEntry) →
    Registry
  | [], _, _ => []
  | (k, v) :: rest, sid, f =>
    (if k = sid then (k, f v) else (k, v)) :: updateSession rest sid f

/-- Item assignment active_sessions[sid] = v: replaces an existing entry
or appends a new one. -/
def insertSession (r : Registry) (sid : List Char) (v : SessionEntry) :
    Registry :=
  match lookupSession r sid with
  | some _ => updateSession r sid (fun _ => v)
  | none => r ++ [(sid, v)]

/-- Status string constants of app.py. -/
def statusRunning : List Char := ('r' :: 'u' :: 'n' :: 'n' :: 'i' :: 'n' :: ['g'])

/-- Status string written by stop_detection. -/
def statusStopped : List Char := ('s' :: 't' :: 'o' :: 'p' :: 'p' :: 'e' :: ['d'])

/-- Status string written by the error branch of run_detection_in_thread. -/
def statusError : List Char := ('e' :: 'r' :: 'r' :: 'o' :: ['r'])

/-- Embedding of the stop_detection route (app.py lines 119-142): unknown
ids answer 404 leaving the registry alone; otherwise the detector flag is
cleared, the status is set to stopped, and the route answers 200. -/
def stop_detection (r : Registry) (sid : List Char) : Registry × Nat :=
  match lookupSession r sid with
  | none => (r, 404)
  | some _ =>
    let r1 := updateSession r sid
      (fun s => { s with detector_running := false, status := statusStopped })
    (r1, 200)

/-- Embedding of the session_status route (app.py lines 144-164), reduced
to its response code. -/
def session_status (r : Registry) (sid : List Char) : Nat :=
  match lookupSession r sid with
  | none => 404
  | some _ => 200

/-- Embedding of run_detection_in_thread (app.py lines 38-48): the worker
is run, and only when an exception escapes start_detection is the session
marked errored with the message.  Returns the updated registry and the
worker run. -/
def run_detection_in_thread (cfg : DetectorConfig) (openOk : Bool)
    (script : List StreamEvent) (st0 : DetectorState)
    (r : Registry) (sid : List Char) : Registry × WorkerRun :=
  let w := start_detection cfg openOk script st0
  if w.raisedOut then
    match w.exitKind with
    | .caughtErr m =>
      (updateSession r sid
        (fun s => { s with status := statusError, errMsg := some m }), w)
    | .cleanStop => (r, w)
  else (r, w)

/-- Registry mutations performed anywhere in app.py: session creation
(app.py line 94), the stop route, and the error branch of the worker
wrapper. -/
inductive RegistryOp where
  | createOp (sid : List Char) (url : List Char)
  | stopOp (sid : List Char)
  | workerErrorOp (sid : List Char) (msg : List Char)
deriving DecidableEq, Repr

/-- Application of one registry mutation. -/
def applyOp (r : Registry) : RegistryOp → Registry
  | .createOp sid url =>
    insertSession r sid
      { rtsp_url := url, status := statusRunning, errMsg := none,
        detector_running := true }
  | .stopOp sid => (stop_detection r sid).1
  | .workerErrorOp sid msg =>
    match lookupSession r sid with
    | none => r
    | some _ =>
      updateSession r sid
        (fun s => { s with status := statusError, errMsg := some msg })

/-- Application of a sequence of registry mutations, oldest first. -/
def applyOps (r : Registry) : List RegistryOp → Registry
  | [] => r
  | op :: rest => applyOps (applyOp r op) rest

/-! ## app.py: the detection_results route -/

/-- A record of the results list of the detection_results route: either a
JSON file read from disk or the in-memory full-detections dictionary that
the route substitutes for the newest record. -/
inductive ResultRecord where
  | fileRec (f : FileEntry)
  | liveRec (fd : FullDetections)
deriving DecidableEq, Repr

/-- Embedding of the get_detection_results route (app.py lines 166-212):
the helper is called with its default limit of 10, since the route reads
no query parameter (the requested limit is accepted here only to mirror
the query string and is ignored, as in the code); when the session's
detector holds a full-detections dictionary the first record is replaced
by it.  Returns the response code and the record list. -/
def get_detection_results (r : Registry) (sid : List Char)
    (_requestLimit : Option Nat) (files : List FileEntry)
    (fullDet : Option FullDetections) : Nat × List ResultRecord :=
  match lookupSession r sid with
  | none => (404, [])
  | some _ =>
    let results := get_latest_detection_results files 10
    match fullDet with
    | some fd =>
      (200, results.enum.map (fun p =>
        if p.1 = 0 then ResultRecord.liveRec fd else ResultRecord.fileRec p.2))
    | none => (200, results.map ResultRecord.fileRec)

/-! ## Sample inputs used by concrete theorems -/

/-- Sample session id. -/
def sid0 : List Char := ('a' :: 'b' :: ['c'])

/-- Sample frame. -/
def frame0 : Frame := { height := 480, width := 640, payload := 7 }

/-- Sample registry entry of a session whose worker has errored. -/
def erroredEntry : SessionEntry :=
  { rtsp_url := ('r' :: 't' :: 's' :: 'p' :: ':' :: '/' :: '/' :: ['x'])
    status := statusError
    errMsg := some ('m' :: 'o' :: 'd' :: 'e' :: ['l'])
    detector_running := false }

/-- Sample registry entry of a running session. -/
def runningEntry : SessionEntry :=
  { rtsp_url := ('r' :: 't' :: 's' :: 'p' :: ':' :: '/' :: '/' :: ['x'])
    status := statusRunning
    errMsg := none
    detector_running := true }

/-- Sample detector state as found inside the worker loop right after a
frame with no detection was processed. -/
def loopStateEmpty : DetectorState :=
  process_results defaultConfig
    { initState with
      running := true
      frame_count := 1
      current_frame := some frame0 } [[]] frame0

/-- Sample detector state as found inside the worker loop right after a
frame with one person detection was processed. -/
def loopStatePerson : DetectorState :=
  process_results defaultConfig
    { initState with
      running := true
      frame_count := 1
      current_frame := some frame0 }
    [[{ cls := 0, conf := 9 / 10, x1 := 10, y1 := 20, x2 := 110, y2 := 220 }]]
    frame0

/-- Sample script of three consecutively delivered frames, none reaching
the save interval. -/
def script3 : List StreamEvent :=
  [ .frameOk frame0 [[]] 0 [], .frameOk frame0 [[]] 0 [],
    .frameOk frame0 [[]] 0 [] ]

/-! # Theorems -/

/-! ## Helper lemmas -/

/-- Helper: the saved list built by the enumeration loop is the filter of
the full list by save-class membership, for any start index. -/
lemma processBoxes_snd_eq_filter (cfg : DetectorConfig) (w h : ℚ) :
    ∀ (i : Nat) (bs : List Box),
      (processBoxes cfg w h i bs).2 =
        (processBoxes cfg w h i bs).1.filter
          (fun d => cfg.save_classes.contains d.class_id) := by
  intro i bs
  induction bs generalizing i with
  | nil => rfl
  | cons b rest ih =>
    simp only [processBoxes]
    by_cases hd : b.cls ∈ cfg.detect_classes
    · by_cases hs : b.cls ∈ cfg.save_classes
      · simp [hd, hs, List.filter_cons, mkDetection, ih]
      · simp [hd, hs, List.filter_cons, mkDetection, ih]
    · simp [hd, ih]

/-- Claim C5: for every processed frame, the persisted detection list
stored in current_results is exactly the subset of the full-view list in
current_full_detections whose class id is a member of the configured
save-class set. -/
theorem C5_persisted_is_saveclass_filter_of_full (cfg : DetectorConfig)
    (st : DetectorState) (results : List (List Box)) (frame : Frame) :
    ((process_results cfg st results frame).current_results).map
        (fun c => c.detections) =
      ((process_results cfg st results frame).current_full_detections).map
        (fun full => full.detections.filter
          (fun d => cfg.save_classes.contains d.class_id)) := by
  unfold process_results
  cases results with
  | nil => simp
  | cons r rs => simp [processBoxes_snd_eq_filter]

/-- Claim C7: for every detection with absolute box on a frame of
positive size, the stored relative box is the componentwise quotient by
the frame size, and when the absolute box lies within the frame every
relative coordinate lies in the unit interval. -/
theorem C7_rel_box_componentwise_and_bounded (w h : ℚ) (i c : Nat)
    (conf x1 y1 x2 y2 : ℚ) (hw : 0 < w) (hh : 0 < h) :
    (mkDetection w h i
        { cls := c, conf := conf, x1 := x1, y1 := y1, x2 := x2, y2 := y2
        }).rel_bbox = [x1 / w, y1 / h, x2 / w, y2 / h] ∧
    (0 ≤ x1 → x1 ≤ w → 0 ≤ y1 → y1 ≤ h → 0 ≤ x2 → x2 ≤ w → 0 ≤ y2 →
      y2 ≤ h →
      ∀ r ∈ (mkDetection w h i
        { cls := c, conf := conf, x1 := x1, y1 := y1, x2 := x2, y2 := y2
        }).rel_bbox, 0 ≤ r ∧ r ≤ 1) := by
  constructor
  · rfl
  · intro h1 h2 h3 h4 h5 h6 h7 h8 r hr
    simp only [mkDetection, rel_box, List.mem_cons, List.mem_singleton,
      List.not_mem_nil, or_false] at hr
    rcases hr with hr | hr | hr | hr <;> subst hr <;> constructor
    · exact div_nonneg h1 hw.le
    · exact (div_le_one hw).mpr h2
    · exact div_nonneg h3 hh.le
    · exact (div_le_one hh).mpr h4
    · exact div_nonneg h5 hw.le
    · exact (div_le_one hw).mpr h6
    · exact div_nonneg h7 hh.le
    · exact (div_le_one hh).mpr h8

/-- Witness for C7 at a concrete box inside a 640 by 480 frame. -/
theorem C7_rel_box_witness :
    (mkDetection 640 480 0
        { cls := 0, conf := 9 / 10, x1 := 10, y1 := 20, x2 := 110,
          y2 := 220 }).rel_bbox =
      [10 / 640, 20 / 480, 110 / 640, 220 / 480] ∧
    ∀ r ∈ (mkDetection 640 480 0
        { cls := 0, conf := 9 / 10, x1 := 10, y1 := 20, x2 := 110,
          y2 := 220 }).rel_bbox, 0 ≤ r ∧ r ≤ 1 := by
  have h := C7_rel_box_componentwise_and_bounded 640 480 0 0 (9 / 10)
    10 20 110 220 (by norm_num) (by norm_num)
  exact ⟨h.1, h.2 (by norm_num) (by norm_num) (by norm_num) (by norm_num)
    (by norm_num) (by norm_num) (by norm_num) (by norm_num)⟩

/-- Claim C8: every string beginning with the protocol head is accepted
by the URL validation, every string lacking the head and not matching the
structural pattern is rejected, and in particular the plain http URL is
rejected. -/
theorem C8_url_validation (url : List Char) :
    (startsWithChars url rtspHead = true → validate_rtsp_url url = true) ∧
    (startsWithChars url rtspHead = false → rtsp_pattern_match url = false →
      validate_rtsp_url url = false) ∧
    validate_rtsp_url (String.toList "http://host") = false := by
  refine ⟨?_, ?_, by decide⟩
  · intro hs
    simp [validate_rtsp_url, hs]
  · intro hs hp
    simp [validate_rtsp_url, hs, hp]

/-- Witness for C8: the validator accepts a concrete stream URL and
rejects the concrete http URL. -/
theorem C8_url_validation_witness :
    validate_rtsp_url (String.toList "rtsp://cam/live") = true ∧
    validate_rtsp_url (String.toList "http://host") = false := by
  constructor
  · exact (C8_url_validation (String.toList "rtsp://cam/live")).1 (by decide)
  · exact (C8_url_validation (String.toList "http://host")).2.2

/-! ## Registry lemmas -/

/-- Helper: looking up after an update at key k maps the entry when sid
is k and is unchanged otherwise. -/
lemma lookupSession_updateSession (r : Registry) (k : List Char)
    (f : SessionEntry → SessionEntry) (sid : List Char) :
    lookupSession (updateSession r k f) sid =
      if sid = k then (lookupSession r sid).map f
      else lookupSession r sid := by
  induction r with
  | nil => simp [updateSession, lookupSession]
  | cons p rest ih =>
    obtain ⟨a, v⟩ := p
    simp only [updateSession]
    by_cases hak : a = k
    · subst hak
      rw [if_pos rfl]
      by_cases hsa : sid = a
      · subst hsa
        simp [lookupSession]
      · have has : ¬ a = sid := by
          intro h
          exact hsa h.symm
        simp only [lookupSession, if_neg has, if_neg hsa]
        rw [ih, if_neg hsa]
    · rw [if_neg hak]
      by_cases hsa : sid = a
      · subst hsa
        simp [lookupSession, hak]
      · have has : ¬ a = sid := by
          intro h
          exact hsa h.symm
        simp only [lookupSession, if_neg has]
        exact ih

/-- Helper: one unfolding step of updateSession when the head entry has
the target key. -/
lemma updateSession_cons_hit (a : List Char) (v : SessionEntry)
    (rest : Registry) (sid : List Char) (f : SessionEntry → SessionEntry)
    (h : a = sid) :
    updateSession ((a, v) :: rest) sid f =
      (a, f v) :: updateSession rest sid f := by
  simp [updateSession, h]

/-- Helper: one unfolding step of updateSession when the head entry has
another key. -/
lemma updateSession_cons_miss (a : List Char) (v : SessionEntry)
    (rest : Registry) (sid : List Char) (f : SessionEntry → SessionEntry)
    (h : ¬ a = sid) :
    updateSession ((a, v) :: rest) sid f =
      (a, v) :: updateSession rest sid f := by
  simp [updateSession, h]

/-- Helper: updating twice at the same key composes the two updates. -/
lemma updateSession_updateSession (r : Registry) (k : List Char)
    (f g : SessionEntry → SessionEntry) :
    updateSession (updateSession r k f) k g =
      updateSession r k (fun s => g (f s)) := by
  induction r with
  | nil => rfl
  | cons p rest ih =>
    obtain ⟨a, v⟩ := p
    by_cases hak : a = k
    · rw [updateSession_cons_hit a v rest k f hak,
        updateSession_cons_hit a (f v) _ k g hak,
        updateSession_cons_hit a v rest k _ hak, ih]
    · rw [updateSession_cons_miss a v rest k f hak,
        updateSession_cons_miss a v _ k g hak,
        updateSession_cons_miss a v rest k _ hak, ih]

/-- Helper: a key present before an append is found unchanged after it. -/
lemma lookupSession_append (r l : Registry) (sid : List Char)
    (s : SessionEntry) (h : lookupSession r sid = some s) :
    lookupSession (r ++ l) sid = some s := by
  induction r with
  | nil => simp [lookupSession] at h
  | cons p rest ih =>
    simp only [lookupSession] at h ⊢
    by_cases hp : p.1 = sid
    · simpa [hp] using h
    · simp only [hp, if_false] at h ⊢
      exact ih h

/-- Counterexample to claim C3: stopping a session whose status is Error
succeeds but does change the session state, overwriting the status with
Stopped. -/
theorem C3_stop_on_errored_session_changes_state :
    (stop_detection [(sid0, erroredEntry)] sid0).2 = 200 ∧
    lookupSession (stop_detection [(sid0, erroredEntry)] sid0).1 sid0 ≠
      some erroredEntry ∧
    lookupSession (stop_detection [(sid0, erroredEntry)] sid0).1 sid0 =
      some { erroredEntry with status := statusStopped } := by
  refine ⟨rfl, ?_, rfl⟩
  intro h
  simp [stop_detection, lookupSession, updateSession, erroredEntry,
    statusStopped, statusError] at h

/-- Claim C3 as amended: Stop on an unknown id returns NotFound leaving
the registry alone; Stop on any registered session succeeds, clears the
running flag and sets the status to Stopped, whatever the previous status
was; a second Stop on the same id succeeds again and leaves the registry
exactly as after the first, so the status remains Stopped. -/
theorem C3_stop_idempotent (r : Registry) (sid : List Char) :
    (lookupSession r sid = none → stop_detection r sid = (r, 404)) ∧
    (∀ s, lookupSession r sid = some s →
      (stop_detection r sid).2 = 200 ∧
      lookupSession (stop_detection r sid).1 sid =
        some { s with detector_running := false, status := statusStopped } ∧
      stop_detection (stop_detection r sid).1 sid =
        ((stop_detection r sid).1, 200)) := by
  constructor
  · intro h
    simp [stop_detection, h]
  · intro s h
    refine ⟨by simp [stop_detection, h], ?_, ?_⟩
    · simp [stop_detection, h, lookupSession_updateSession]
    · simp only [stop_detection, h]
      rw [lookupSession_updateSession]
      simp only [if_pos rfl, h, Option.map_some']
      rw [updateSession_updateSession]
      rfl

/-- Witness for C3 at a concrete registry: an unknown id answers 404, and
a known running session stops with 200 and status Stopped. -/
theorem C3_stop_idempotent_witness :
    stop_detection [] sid0 = ([], 404) ∧
    (stop_detection [(sid0, runningEntry)] sid0).2 = 200 ∧
    lookupSession (stop_detection [(sid0, runningEntry)] sid0).1 sid0 =
      some { runningEntry with
             detector_running := false
             status := statusStopped } := by
  refine ⟨(C3_stop_idempotent [] sid0).1 rfl, ?_, ?_⟩
  · exact ((C3_stop_idempotent [(sid0, runningEntry)] sid0).2
      runningEntry rfl).1
  · exact ((C3_stop_idempotent [(sid0, runningEntry)] sid0).2
      runningEntry rfl).2.1

/-- Helper: no registry mutation of app.py removes a registered session;
each operation preserves the presence of every key. -/
lemma applyOp_preserves_lookup (r : Registry) (op : RegistryOp)
    (sid : List Char) (s : SessionEntry)
    (h : lookupSession r sid = some s) :
    ∃ s2, lookupSession (applyOp r op) sid = some s2 := by
  cases op with
  | createOp k url =>
    simp only [applyOp, insertSession]
    cases hk : lookupSession r k with
    | none =>
      exact ⟨s, lookupSession_append r _ sid s h⟩
    | some v =>
      rw [lookupSession_updateSession]
      by_cases hs : sid = k
      · rw [if_pos hs, h]
        exact ⟨_, rfl⟩
      · rw [if_neg hs, h]
        exact ⟨s, rfl⟩
  | stopOp k =>
    simp only [applyOp, stop_detection]
    cases hk : lookupSession r k with
    | none => exact ⟨s, h⟩
    | some v =>
      rw [lookupSession_updateSession]
      by_cases hs : sid = k
      · rw [if_pos hs, h]
        exact ⟨_, rfl⟩
      · rw [if_neg hs, h]
        exact ⟨s, rfl⟩
  | workerErrorOp k msg =>
    simp only [applyOp]
    cases hk : lookupSession r k with
    | none => exact ⟨s, h⟩
    | some v =>
      rw [lookupSession_updateSession]
      by_cases hs : sid = k
      · rw [if_pos hs, h]
        exact ⟨_, rfl⟩
      · rw [if_neg hs, h]
        exact ⟨s, rfl⟩

/-- Claim C10: once a session id is registered, no sequence of registry
mutations performed by the application ever removes it, so the status
route keeps answering 200 for it and never NotFound. -/
theorem C10_registry_entry_never_removed (ops : List RegistryOp)
    (r : Registry) (sid : List Char) (s : SessionEntry)
    (h : lookupSession r sid = some s) :
    (∃ s2, lookupSession (applyOps r ops) sid = some s2) ∧
    session_status (applyOps r ops) sid = 200 := by
  induction ops generalizing r s with
  | nil =>
    refine ⟨⟨s, h⟩, ?_⟩
    simp [session_status, applyOps, h]
  | cons op rest ih =>
    obtain ⟨s2, h2⟩ := applyOp_preserves_lookup r op sid s h
    simpa [applyOps] using ih (applyOp r op) s2 h2

/-- Witness for C10: a created session still answers 200 after a stop, a
worker error and a second create of another id. -/
theorem C10_registry_entry_never_removed_witness :
    (∃ s2, lookupSession
      (applyOps [(sid0, runningEntry)]
        [ .stopOp sid0,
          .workerErrorOp sid0 ('b' :: 'o' :: 'o' :: ['m']),
          .createOp ('z' :: []) ('r' :: 't' :: 's' :: 'p' :: ':' :: '/' :: '/' :: ['y']) ])
      sid0 = some s2) ∧
    session_status
      (applyOps [(sid0, runningEntry)]
        [ .stopOp sid0,
          .workerErrorOp sid0 ('b' :: 'o' :: 'o' :: ['m']),
          .createOp ('z' :: []) ('r' :: 't' :: 's' :: 'p' :: ':' :: '/' :: '/' :: ['y']) ])
      sid0 = 200 :=
  C10_registry_entry_never_removed
    [ .stopOp sid0,
      .workerErrorOp sid0 ('b' :: 'o' :: 'o' :: ['m']),
      .createOp ('z' :: []) ('r' :: 't' :: 's' :: 'p' :: ':' :: '/' :: '/' :: ['y']) ]
    [(sid0, runningEntry)] sid0 runningEntry rfl

/-! ## Worker loop theorems -/

/-- Helper: start_detection catches every exception of the worker
internally, so none ever escapes to the thread wrapper. -/
lemma start_detection_never_raises (cfg : DetectorConfig) (openOk : Bool)
    (script : List StreamEvent) (st0 : DetectorState) :
    (start_detection cfg openOk script st0).raisedOut = false := by
  simp only [start_detection]
  by_cases h : openOk
  · simp only [h, if_true]
    cases (runLoop cfg script { st0 with running := true }).2.2 <;> rfl
  · simp [h]

/-- Claim C1 (evidence of the code bug): because start_detection swallows
its own exceptions, run_detection_in_thread never updates the registry,
so on a source that cannot be opened the session keeps status running
with no error message, the worker exits with its running flag cleared,
and the capture handle of the error path is not released — where the
claim expects status Error with the captured message. -/
theorem C1_worker_error_never_reaches_registry :
    (∀ (cfg : DetectorConfig) (openOk : Bool) (script : List StreamEvent)
      (st0 : DetectorState) (r : Registry) (sid : List Char),
      (run_detection_in_thread cfg openOk script st0 r sid).1 = r) ∧
    lookupSession
      (run_detection_in_thread defaultConfig false [] initState
        [(sid0, runningEntry)] sid0).1 sid0 = some runningEntry ∧
    runningEntry.status = statusRunning ∧
    runningEntry.errMsg = none ∧
    (start_detection defaultConfig false [] initState).released = false ∧
    (start_detection defaultConfig false [] initState).finalState.running
      = false := by
  have hreg : ∀ (cfg : DetectorConfig) (openOk : Bool)
      (script : List StreamEvent) (st0 : DetectorState) (r : Registry)
      (sid : List Char),
      (run_detection_in_thread cfg openOk script st0 r sid).1 = r := by
    intro cfg openOk script st0 r sid
    simp only [run_detection_in_thread, start_detection_never_raises,
      Bool.false_eq_true, if_false]
  refine ⟨hreg, ?_, rfl, rfl, rfl, rfl⟩
  rw [hreg]
  rfl

/-- Counterexample to claim C2: in a run in which three consecutive
frames are read, the Detector is invoked three times, not once — there is
no skip counter in the loop. -/
theorem C2_three_frames_three_detector_calls :
    (start_detection defaultConfig true script3 initState).actions.count
        Action.readOk = 3 ∧
    (start_detection defaultConfig true script3 initState).actions.count
        Action.detectCall = 3 ∧
    ¬ (start_detection defaultConfig true script3 initState).actions.count
        Action.detectCall = 1 := by
  have h : (start_detection defaultConfig true script3 initState).actions =
      [Action.readOk, Action.detectCall, Action.readOk, Action.detectCall,
        Action.readOk, Action.detectCall] := by
    norm_num [start_detection, runLoop, script3, initState, defaultConfig,
      process_results, processBoxes]
  rw [h]
  exact ⟨rfl, rfl, by decide⟩

/-- Claim C2 as amended: the worker loop has no sampling: every
successfully read frame is passed to the Detector, so the number of
Detector invocations in any run equals the number of successful reads. -/
theorem C2_every_read_frame_is_detected (cfg : DetectorConfig)
    (script : List StreamEvent) (st : DetectorState) :
    (runLoop cfg script st).2.1.count Action.detectCall =
      (runLoop cfg script st).2.1.count Action.readOk := by
  induction script generalizing st with
  | nil => rfl
  | cons e rest ih =>
    cases e with
    | stopFlag => rfl
    | readFail => simp [runLoop, List.count_cons, ih]
    | frameRaise f => simp [runLoop, List.count_cons]
    | frameOk f results now ts =>
      simp only [runLoop]
      split
      · split
        · simp [List.count_cons]
        · simp [List.count_cons, ih]
      · simp [List.count_cons, ih]

/-- Claim C6: on every save triggered from inside the worker loop — where
a frame is held and both current dictionaries are populated — the JSON
record is written whether or not the detection list is empty, and the
original and annotated images are written exactly when the full-view
detection count is nonzero. -/
theorem C6_json_always_images_iff_detections (st : DetectorState)
    (ts : List Char) (res : CurrentResults) (f : Frame)
    (full : FullDetections) (h1 : st.current_results = some res)
    (h2 : st.current_frame = some f)
    (h3 : st.current_full_detections = some full) :
    (save_results st ts).map (fun p => p.1.json_written) = some true ∧
    (save_results st ts).map (fun p => p.1.original_written) =
      some (decide (0 < full.total_detections)) ∧
    (save_results st ts).map (fun p => p.1.annotated_written) =
      some (decide (0 < full.total_detections)) := by
  simp only [save_results, h1, h2, h3]
  by_cases hd : 0 < full.total_detections
  · simp [hd]
  · simp [hd]

/-- Witness for C6: after a frame with no detection only the JSON record
is written, and after a frame with one person detection the JSON record
and both images are written. -/
theorem C6_json_always_images_iff_detections_witness :
    (save_results loopStateEmpty [] ).map (fun p => p.1.json_written) =
      some true ∧
    (save_results loopStateEmpty [] ).map (fun p => p.1.original_written) =
      some false ∧
    (save_results loopStatePerson [] ).map (fun p => p.1.json_written) =
      some true ∧
    (save_results loopStatePerson [] ).map (fun p => p.1.original_written) =
      some true := by
  obtain ⟨he1, he2, -⟩ :=
    C6_json_always_images_iff_detections loopStateEmpty [] _ _ _ rfl rfl rfl
  obtain ⟨hp1, hp2, -⟩ :=
    C6_json_always_images_iff_detections loopStatePerson [] _ _ _ rfl rfl rfl
  exact ⟨he1, he2.trans (by decide), hp1, hp2.trans (by decide)⟩

/-! ## Results listing theorems -/

/-- Helper: membership in an insertion is membership in the parts. -/
lemma mem_insertByMtime (z x : FileEntry) (l : List FileEntry) :
    z ∈ insertByMtime x l ↔ z = x ∨ z ∈ l := by
  induction l with
  | nil => simp [insertByMtime]
  | cons y rest ih =>
    simp only [insertByMtime]
    by_cases h : y.mtime ≤ x.mtime
    · rw [if_pos h]
      exact List.mem_cons
    · rw [if_neg h]
      simp only [List.mem_cons, ih]
      tauto

/-- Helper: insertion keeps the list pairwise descending by mtime. -/
lemma pairwise_insertByMtime (x : FileEntry) (l : List FileEntry)
    (h : l.Pairwise (fun a b => b.mtime ≤ a.mtime)) :
    (insertByMtime x l).Pairwise (fun a b => b.mtime ≤ a.mtime) := by
  induction l with
  | nil => simp [insertByMtime]
  | cons y rest ih =>
    simp only [insertByMtime]
    rcases List.pairwise_cons.mp h with ⟨hy, hrest⟩
    by_cases hle : y.mtime ≤ x.mtime
    · rw [if_pos hle]
      refine List.pairwise_cons.mpr ⟨?_, h⟩
      intro z hz
      rcases List.mem_cons.mp hz with hz | hz
      · subst hz
        exact hle
      · exact le_trans (hy z hz) hle
    · rw [if_neg hle]
      refine List.pairwise_cons.mpr ⟨?_, ih hrest⟩
      intro z hz
      rcases (mem_insertByMtime z x rest).mp hz with hz | hz
      · subst hz
        exact le_of_not_le hle
      · exact hy z hz

/-- Helper: the stable sort produces a pairwise descending list. -/
lemma pairwise_sortByMtimeDesc (l : List FileEntry) :
    (sortByMtimeDesc l).Pairwise (fun a b => b.mtime ≤ a.mtime) := by
  induction l with
  | nil => simp [sortByMtimeDesc]
  | cons x rest ih => exact pairwise_insertByMtime x _ ih

/-- Counterexample to claim C4: the results route reads no limit query
parameter, so a request with limit one still returns two records when two
are on disk. -/
theorem C4_limit_query_ignored :
    (get_detection_results [(sid0, runningEntry)] sid0 (some 1)
      [ { name := String.toList "detection_a.json", mtime := 1 },
        { name := String.toList "detection_b.json", mtime := 2 } ]
      none).2.length = 2 ∧
    ¬ (get_detection_results [(sid0, runningEntry)] sid0 (some 1)
      [ { name := String.toList "detection_a.json", mtime := 1 },
        { name := String.toList "detection_b.json", mtime := 2 } ]
      none).2.length ≤ 1 := by
  refine ⟨rfl, by decide⟩

/-- Claim C4 as amended: the helper with limit N returns at most N
records, ordered by nonincreasing file modification time, and the route,
which passes no limit and so always uses the helper's default of ten,
returns at most ten records for any request. -/
theorem C4_results_at_most_limit_and_sorted :
    (∀ (files : List FileEntry) (limit : Nat),
      (get_latest_detection_results files limit).length ≤ limit) ∧
    (∀ (files : List FileEntry) (limit : Nat),
      (get_latest_detection_results files limit).Pairwise
        (fun a b => b.mtime ≤ a.mtime)) ∧
    (∀ (r : Registry) (sid : List Char) (q : Option Nat)
      (files : List FileEntry) (fd : Option FullDetections),
      (get_detection_results r sid q files fd).2.length ≤ 10) := by
  have hlen : ∀ (files : List FileEntry) (limit : Nat),
      (get_latest_detection_results files limit).length ≤ limit := by
    intro files limit
    simp only [get_latest_detection_results]
    exact List.length_take_le limit _
  refine ⟨hlen, ?_, ?_⟩
  · intro files limit
    simp only [get_latest_detection_results]
    exact (pairwise_sortByMtimeDesc _).sublist (List.take_sublist _ _)
  · intro r sid q files fd
    simp only [get_detection_results]
    cases lookupSession r sid with
    | none => simp
    | some s =>
      cases fd with
      | none => simpa using hlen files 10
      | some v => simpa [List.enum_length] using hlen files 10

end YoloRtsp
